import Mathlib

/-!
Verification of the PreseGuide presentation-coaching frontend against its
natural-language specification.  Definitions are shallow embeddings of the
TypeScript source under src/.  Where a claim depends on backend code that is
not part of the repository snapshot (the Django scoring / gamification
services), the corresponding definition is modelled from the specification
and its doc comment says so explicitly.
-/

namespace PreseGuide

/-- Recording lifecycle status, from the union type in
src/frontend/types/index.ts (line 12):
pending, processing, completed, failed. -/
inductive Status where
  | pending
  | processing
  | completed
  | failed
deriving DecidableEq, Repr

/-- Fields of a Recording used by the claims, from the Recording interface in
src/frontend/types/index.ts: lifecycle status, 1-based iteration number,
optional overall score, optional improvement delta versus the previous
iteration, and the formatted improvement-percentage string. -/
structure Recording where
  status : Status
  iteration_number : Nat
  overall_score : Option ℚ
  improvement_from_previous : Option ℚ
  improvement_percentage : String
deriving DecidableEq, Repr

/-- Fields of a Presentation used by the claims, from the Presentation
interface in src/frontend/types/index.ts: cumulative XP, derived level,
XP remaining to the next level, and the ordered recordings collection. -/
structure Presentation where
  total_xp : Nat
  current_level : Nat
  xp_to_next_level : Nat
  recordings : List Recording
deriving DecidableEq, Repr

/-- Modelled from the spec: the backend level derivation (Django gamification
service, not in src/) is level = min(5, 1 + floor(XP / 100)). -/
def levelOf (xp : Nat) : Nat := min 5 (1 + xp / 100)

/-- XP threshold required to reach level n per the level formula: the least
XP at which levelOf yields at least n, namely (n - 1) * 100 for n in 1..5. -/
def levelThreshold (n : Nat) : Nat := (n - 1) * 100

/-- Modelled from the spec: xp_to_next_level = next threshold minus XP,
0 at level 5 (the backend field is not in src/). -/
def xpToNextLevel (xp : Nat) : Nat :=
  if levelOf xp ≥ 5 then 0 else levelOf xp * 100 - xp

/-- XP amount the level-progress display reports as required for a level
card: the ProgressTab component renders the literal text
"level * 100 XP required" (src/unnamed/part_001 line 865). -/
def displayedXPRequired (level : Nat) : Nat := level * 100

/-- Progress-bar percentage of the XP card, from XPCard
(src/unnamed/part_001 lines 242-244): 100 at level 5 and above, otherwise
((total_xp mod 100) / 100) * 100. -/
def xpProgressPercent (p : Presentation) : ℚ :=
  if p.current_level ≥ 5 then 100
  else (((p.total_xp % 100 : Nat) : ℚ) / 100) * 100

/-- Insertion order equals iteration order: the recordings collection carries
iteration numbers 1, 2, ..., length in list order (spec data model: insertion
order = chronological = iteration order, iteration numbers 1-based and dense).
Stated as an equality with the range list so it is decidable on concrete
inputs. -/
def iterationOrdered (recs : List Recording) : Prop :=
  recs.map (fun r => r.iteration_number) = List.range' 1 recs.length

instance (recs : List Recording) : Decidable (iterationOrdered recs) := by
  unfold iterationOrdered
  infer_instance

/-- Recording auto-selected by the detail page when the presentation loads:
recordings[0] when the collection is nonempty (src/unnamed/part_001
lines 25-28, commented there as selecting the latest recording). -/
def autoSelected (p : Presentation) : Option Recording :=
  p.recordings.head?

/-- Latest recording of a presentation: the last element of the collection,
which under chronological insertion order is the most recent one. -/
def latestRecording (p : Presentation) : Option Recording :=
  p.recordings.getLast?

/-- Modelled from the spec: the backend improvement computation (Progression
Ledger, not in src/) uses the most recent completed prior iteration, skipping
failed ones.  This extracts the overall scores of completed recordings, in
order. -/
def completedScores (recs : List Recording) : List ℚ :=
  recs.filterMap fun r =>
    if r.status = Status.completed then r.overall_score else none

/-- Modelled from the spec: score of the most recent completed prior
iteration for a new recording, given the prior history; none when no prior
completed iteration exists (in particular for iteration 1). -/
def priorCompletedScore (history : List Recording) : Option ℚ :=
  (completedScores history).getLast?

/-- Modelled from the spec: improvement delta of a new overall score versus
the most recent completed prior iteration; null when there is none. -/
def improvementDelta (history : List Recording) (score : ℚ) : Option ℚ :=
  (priorCompletedScore history).map fun p => score - p

/-- Digits-and-percent part of the formatted percentage, for a value given in
integer tenths of a percent. -/
def fmtTenths (r : ℤ) : String :=
  toString (r.natAbs / 10) ++ "." ++ toString (r.natAbs % 10) ++ "%"

/-- Signed percentage string with one decimal place, in the shape of the
examples given by the spec: "+12.5%", "-3.0%", "0.0%". -/
def formatSignedPct (q : ℚ) : String :=
  if round (q * 10) > 0 then "+" ++ fmtTenths (round (q * 10))
  else if round (q * 10) < 0 then "-" ++ fmtTenths (round (q * 10))
  else "0.0%"

/-- Modelled from the spec: the formatted improvement percentage of a new
overall score given the prior history — "N/A" when the delta is null, "0.0%"
when the prior score is 0, otherwise the signed percentage of the relative
delta. -/
def improvementPercentage (history : List Recording) (score : ℚ) : String :=
  match priorCompletedScore history with
  | none => "N/A"
  | some p => if p = 0 then "0.0%" else formatSignedPct ((score - p) / p * 100)

/-- UI guard of the recordings list: the improvement indicator for a
recording is rendered only inside the block guarded by
overall_score not null and improvement_from_previous not null
(src/unnamed/part_001 lines 425-440). -/
def rendersImprovement (r : Recording) : Bool :=
  r.overall_score.isSome && r.improvement_from_previous.isSome

/-- Modelled from the spec: the eight badge types of the Badge Evaluator
table (the backend enum is not in src/; the README in src/unnamed/part_000
line 77 confirms eight badge types). -/
inductive BadgeType where
  | first_recording
  | first_completion
  | perfectionist
  | five_recordings
  | ten_recordings
  | level_up
  | max_level
  | improvement_streak
deriving DecidableEq, Repr

/-- Serialized name of each badge type, as the frontend receives it in the
badge_type field. -/
def BadgeType.str : BadgeType → String
  | .first_recording => "first_recording"
  | .first_completion => "first_completion"
  | .perfectionist => "perfectionist"
  | .five_recordings => "five_recordings"
  | .ten_recordings => "ten_recordings"
  | .level_up => "level_up"
  | .max_level => "max_level"
  | .improvement_streak => "improvement_streak"

/-- All eight badge types, in the order of the badgeEmojis record. -/
def allBadgeTypes : List BadgeType :=
  [.first_recording, .first_completion, .perfectionist, .five_recordings,
   .ten_recordings, .level_up, .max_level, .improvement_streak]

/-- Emoji record of the BadgeDisplay component (src/unnamed/part_001
lines 270-279): a lookup from badge_type strings to emojis, none for any
other key. -/
def badgeEmojis (t : String) : Option String :=
  if t = "first_recording" then some "🎬"
  else if t = "first_completion" then some "✅"
  else if t = "perfectionist" then some "💯"
  else if t = "five_recordings" then some "5️⃣"
  else if t = "ten_recordings" then some "🔟"
  else if t = "level_up" then some "⬆️"
  else if t = "max_level" then some "👑"
  else if t = "improvement_streak" then some "🔥"
  else none

/-- Emoji actually displayed for a badge_type string: the looked-up emoji, or
the trophy fallback when the lookup misses (src/unnamed/part_001 line 286:
badgeEmojis[badge.badge_type] or the fallback). -/
def displayEmoji (t : String) : String :=
  (badgeEmojis t).getD "🏆"

/-- Level names array of the ProgressTab component (src/unnamed/part_001
lines 830-836). -/
def levelNames : List String :=
  ["First Words", "Finding Voice", "Building Confidence",
   "Commanding Presence", "Presentation Master"]

/-- Level name the ProgressTab card of a given level displays:
levelNames[level - 1] (src/unnamed/part_001 line 863). -/
def displayedLevelName (level : Nat) : Option String :=
  levelNames.get? (level - 1)

/-- Level names as the README lists them (src/unnamed/part_000 line 75:
First Words, Finding Voice, Building Confidence, Commanding Presence,
Presentation Master, in that order). -/
def readmeLevelNames : List String :=
  ["First Words", "Finding Voice", "Building Confidence",
   "Commanding Presence", "Presentation Master"]

/-- Trend classification, from the improvement_trend union type in
src/frontend/types/index.ts (line 74). -/
inductive Trend where
  | improving
  | declining
  | stable
  | insufficient_data
deriving DecidableEq, Repr

/-- Modelled from the spec: the backend trend rule (not in src/) —
insufficient_data when fewer than 2 completed recordings exist, otherwise the
direction of the recent window (the last three completed scores), with a
stability band; the spec leaves the exact rule tunable. -/
def trendDirection (recent : List ℚ) : Trend :=
  let d := recent.getLastD 0 - recent.headD 0
  if d > 10 then Trend.improving
  else if d < -10 then Trend.declining
  else Trend.stable

/-- Modelled from the spec: trend classification of a presentation from its
recordings — insufficient_data exactly below 2 completed recordings,
otherwise the direction of the recent window. -/
def computeTrend (recs : List Recording) : Trend :=
  let scores := completedScores recs
  if scores.length < 2 then Trend.insufficient_data
  else trendDirection (scores.drop (scores.length - 3))

/-- Trend icon mapping of the ProgressTab component (src/unnamed/part_001
lines 744-755): improving, declining and stable each get an icon, any other
value falls through to the default. -/
def getTrendIcon (trend : String) : String :=
  if trend = "improving" then "📈"
  else if trend = "declining" then "📉"
  else if trend = "stable" then "➡️"
  else "❓"

/-- Maximum number of polling attempts of pollRecordingStatus
(src/unnamed/part_001 line 70). -/
def maxAttempts : Nat := 60

/-- Polling interval of pollRecordingStatus in milliseconds
(src/unnamed/part_001 line 99). -/
def pollIntervalMs : Nat := 5000

/-- Terminal statuses of the recording state machine: completed and failed
are the two statuses on which pollRecordingStatus clears its interval
(src/unnamed/part_001 lines 80-90). -/
def isTerminal : Status → Bool
  | .completed => true
  | .failed => true
  | _ => false

/-- One tick of the pollRecordingStatus interval, given the response to the
status request of attempt number t (none models a request error caught by
the catch block): the interval is cleared on a completed or failed status,
or — only when the request succeeded — once the attempt count has reached
maxAttempts; a request error never clears it (src/unnamed/part_001
lines 73-99). -/
def tickStops (f : Nat → Option Status) (t : Nat) : Bool :=
  match f t with
  | some s => isTerminal s || decide (t ≥ maxAttempts)
  | none => false

/-- Whether the polling interval is still running at attempt number t, so
that tick t issues a status request: attempt 1 always runs, and attempt t+1
runs when attempt t ran and did not clear the interval. -/
def active (f : Nat → Option Status) : Nat → Bool
  | 0 => false
  | 1 => true
  | t + 2 => active f (t + 1) && !tickStops f (t + 1)

/-- Number of status requests pollRecordingStatus issues among the first T
ticks of its interval, given the per-attempt responses. -/
def requestsIssued (f : Nat → Option Status) (T : Nat) : Nat :=
  (List.range T).countP fun i => active f (i + 1)

/-- Clamp a score into the [0, 100] range. -/
def clampScore (x : ℚ) : ℚ := max 0 (min 100 x)

/-- Distance of a words-per-minute value from the ideal 120-160 band, 0 at
or inside the band. -/
def bandDist (wpm : ℚ) : ℚ := max 0 (max (120 - wpm) (wpm - 160))

/-- Modelled from the spec: pacing score of the Metric Scorer (backend
service, not in src/) — 100 at or inside the ideal words-per-minute band,
decreasing with the distance outside it, clamped to [0, 100]; the exact band
and rate are tunable per the spec. -/
def pacingScore (wpm : ℚ) : ℚ := clampScore (100 - bandDist wpm)

/-- Modelled from the spec: clarity score of the Metric Scorer — penalizes
filler-word density, monotone decreasing in the density, floor at 0, and 0
outright when the total word count is 0. -/
def clarityScore (fillerCount totalWords : Nat) : ℚ :=
  if totalWords = 0 then 0
  else clampScore (100 - 200 * ((fillerCount : ℚ) / (totalWords : ℚ)))

/-- Modelled from the spec: overall score of the Metric Scorer — a weighted
combination of pacing, clarity and, when present, coverage, with the weights
renormalized over the remaining sub-scores when coverage is absent, clamped
to [0, 100]. -/
def overallScore (p c : ℚ) (cov : Option ℚ) : ℚ :=
  match cov with
  | some v => clampScore ((p + c + v) / 3)
  | none => clampScore ((p + c) / 2)

/-- Modelled from the spec: the full Metric Scorer output
(pacing, clarity, overall) — all three defined as 0 when the total word
count is 0. -/
def metricScores (wpm : ℚ) (fillerCount totalWords : Nat) (cov : Option ℚ) :
    ℚ × ℚ × ℚ :=
  if totalWords = 0 then (0, 0, 0)
  else
    let p := pacingScore wpm
    let c := clarityScore fillerCount totalWords
    (p, c, overallScore p c cov)

/-- Claim C1, counterexample: the claim fails as stated — the level-progress
display reports displayedXPRequired 1 = 100 XP required for level 1, while
the threshold to reach level 1 under the level formula is
levelThreshold 1 = 0. -/
theorem displayed_xp_required_mismatch :
    displayedXPRequired 1 = 100 ∧ levelThreshold 1 = 0 ∧
    displayedXPRequired 1 ≠ levelThreshold 1 := by
  decide

/-- Claim C1, amended: for every level n in 1..5 the XP threshold required to
reach level n is (n - 1) * 100, consistent with
level = min(5, 1 + floor(XP / 100)) in the sense that level n is attained
exactly from that threshold on; the level-progress display, however, reports
n * 100 XP required for level n, which is the threshold of level n + 1. -/
theorem level_thresholds_amended (n : Nat) (h1 : 1 ≤ n) (h5 : n ≤ 5) :
    levelThreshold n = (n - 1) * 100 ∧
    (∀ xp : Nat, n ≤ levelOf xp ↔ levelThreshold n ≤ xp) ∧
    displayedXPRequired n = levelThreshold (n + 1) := by
  refine ⟨rfl, fun xp => ?_, ?_⟩
  · unfold levelOf levelThreshold
    omega
  · unfold displayedXPRequired levelThreshold
    omega

/-- Claim C1, witness: the amended statement at level 2 and XP 250. -/
theorem level_thresholds_amended_witness :
    displayedXPRequired 2 = levelThreshold 3 ∧
    (2 ≤ levelOf 250 ↔ levelThreshold 2 ≤ 250) :=
  ⟨(level_thresholds_amended 2 (by decide) (by decide)).2.2,
   (level_thresholds_amended 2 (by decide) (by decide)).2.1 250⟩

/-- Claim C4: for a presentation whose current_level and xp_to_next_level
are consistent with the XP per the level formula, below level 5 the
xp_to_next_level field equals the next threshold minus the XP, and the XP
progress-bar percentage rendered by XPCard equals 100 minus that remainder;
at level 5 xp_to_next_level is 0 and the bar shows 100 percent. -/
theorem xp_progress_bar_consistent (p : Presentation)
    (hl : p.current_level = levelOf p.total_xp)
    (hx : p.xp_to_next_level = xpToNextLevel p.total_xp) :
    (p.current_level < 5 →
      p.xp_to_next_level = p.current_level * 100 - p.total_xp ∧
      xpProgressPercent p = 100 - (p.xp_to_next_level : ℚ)) ∧
    (5 ≤ p.current_level →
      p.xp_to_next_level = 0 ∧ xpProgressPercent p = 100) := by
  constructor
  · intro h5
    have hlt : ¬ levelOf p.total_xp ≥ 5 := by omega
    have hxval : p.xp_to_next_level = levelOf p.total_xp * 100 - p.total_xp := by
      rw [hx, xpToNextLevel, if_neg hlt]
    have hmod : p.xp_to_next_level = 100 - p.total_xp % 100 := by
      rw [hxval]; unfold levelOf at hlt ⊢; omega
    have hmodlt : p.total_xp % 100 < 100 := Nat.mod_lt _ (by norm_num)
    constructor
    · rw [hxval, hl]
    · have hcast : (p.xp_to_next_level : ℚ) = 100 - ((p.total_xp % 100 : Nat) : ℚ) := by
        rw [hmod, Nat.cast_sub (le_of_lt hmodlt)]
        push_cast
        ring
      rw [xpProgressPercent, if_neg (by omega), hcast]
      have h100 : (100 : ℚ) ≠ 0 := by norm_num
      rw [div_mul_cancel₀ _ h100]
      ring
  · intro h5
    constructor
    · rw [hx, xpToNextLevel, if_pos (by omega)]
    · rw [xpProgressPercent, if_pos h5]

/-- Claim C4, witness: the consistency at XP 250, level 3,
xp_to_next_level 50. -/
theorem xp_progress_bar_witness :
    Presentation.xp_to_next_level ⟨250, 3, 50, []⟩ = 3 * 100 - 250 ∧
    xpProgressPercent ⟨250, 3, 50, []⟩ = 100 - ((50 : Nat) : ℚ) :=
  (xp_progress_bar_consistent ⟨250, 3, 50, []⟩ (by decide) (by decide)).1
    (by decide)

lemma range'_getLast? (s : Nat) :
    ∀ n : Nat, (List.range' s n).getLast? = if n = 0 then none else some (s + n - 1) := by
  intro n
  induction n generalizing s with
  | zero => rfl
  | succ m ih =>
    cases m with
    | zero => simp [List.range']
    | succ k =>
      have hstep : List.range' s (k + 2) = s :: List.range' (s + 1) (k + 1) := rfl
      rw [hstep]
      have hcons : List.range' (s + 1) (k + 1) = (s + 1) :: List.range' (s + 2) k := rfl
      rw [hcons, List.getLast?_cons_cons, ← hcons, ih (s + 1)]
      simp
      omega

/-- First iteration 1 recording of the chronological history. -/
def recA : Recording :=
  { status := Status.completed, iteration_number := 1, overall_score := some 60,
    improvement_from_previous := none, improvement_percentage := "N/A" }

/-- Second iteration 2 recording of the chronological history. -/
def recB : Recording :=
  { status := Status.completed, iteration_number := 2, overall_score := some 75,
    improvement_from_previous := some 15, improvement_percentage := "+25.0%" }

/-- Presentation with two recordings in insertion order. -/
def demoPres : Presentation :=
  { total_xp := 0, current_level := 1, xp_to_next_level := 100,
    recordings := [recA, recB] }

/-- Presentation with a single recording. -/
def demoSingle : Presentation :=
  { total_xp := 0, current_level := 1, xp_to_next_level := 100,
    recordings := [recA] }

/-- Claim C2, counterexample: with two recordings whose iteration numbers
follow insertion order, the detail page auto-selects recordings[0], which is
the iteration 1 recording and not the latest one. -/
theorem auto_select_not_latest :
    iterationOrdered demoPres.recordings ∧
    autoSelected demoPres ≠ latestRecording demoPres := by
  decide

/-- Claim C2, amended: under the documented ordering (insertion order =
chronological = iteration order) recordings[0] is the iteration 1 recording,
the oldest; the detail page auto-selects exactly that recording, so the
selection coincides with the latest recording only when at most one
recording exists, and differs from it as soon as there are two. -/
theorem auto_select_amended (p : Presentation)
    (h : iterationOrdered p.recordings) :
    ((autoSelected p).map (fun r => r.iteration_number) =
      if p.recordings.length = 0 then none else some 1) ∧
    ((latestRecording p).map (fun r => r.iteration_number) =
      if p.recordings.length = 0 then none else some p.recordings.length) ∧
    (p.recordings.length ≤ 1 → autoSelected p = latestRecording p) ∧
    (2 ≤ p.recordings.length → autoSelected p ≠ latestRecording p) := by
  have hmap : p.recordings.map (fun r => r.iteration_number) =
      List.range' 1 p.recordings.length := h
  have hhead : (autoSelected p).map (fun r => r.iteration_number) =
      if p.recordings.length = 0 then none else some 1 := by
    rw [autoSelected, ← List.head?_map, hmap]
    cases hL : p.recordings.length with
    | zero => rfl
    | succ m => rfl
  have hlast : (latestRecording p).map (fun r => r.iteration_number) =
      if p.recordings.length = 0 then none else some p.recordings.length := by
    rw [latestRecording, ← List.getLast?_map, hmap, range'_getLast?]
    rcases Nat.eq_zero_or_pos p.recordings.length with h0 | hpos
    · simp [h0]
    · rw [if_neg (by omega), if_neg (by omega)]
      congr 1
      omega
  refine ⟨hhead, hlast, ?_, ?_⟩
  · intro hle
    rw [autoSelected, latestRecording]
    rcases hrec : p.recordings with _ | ⟨a, t⟩
    · rfl
    · rcases t with _ | ⟨b, u⟩
      · rfl
      · rw [hrec] at hle
        simp at hle
  · intro h2 heq
    have h0 : p.recordings.length ≠ 0 := by omega
    have : (autoSelected p).map (fun r => r.iteration_number) =
        (latestRecording p).map (fun r => r.iteration_number) := by rw [heq]
    rw [hhead, hlast, if_neg h0, if_neg h0] at this
    have : 1 = p.recordings.length := Option.some.inj this
    omega

/-- Claim C2, witness: the amended statement at a single-recording
presentation, where the auto-selected recording is also the latest. -/
theorem auto_select_amended_witness :
    autoSelected demoSingle = latestRecording demoSingle :=
  (auto_select_amended demoSingle (by decide)).2.2.1 (by decide)

lemma formatSignedPct_ne_NA (q : ℚ) : formatSignedPct q ≠ "N/A" := by
  unfold formatSignedPct
  split_ifs with h1 h2
  · intro h
    have hd := congrArg String.data h
    rw [String.data_append] at hd
    have e1 : ("+" : String).data = ['+'] := rfl
    have e2 : ("N/A" : String).data = ['N', '/', 'A'] := rfl
    rw [e1, e2] at hd
    simp at hd
  · intro h
    have hd := congrArg String.data h
    rw [String.data_append] at hd
    have e1 : ("-" : String).data = ['-'] := rfl
    have e2 : ("N/A" : String).data = ['N', '/', 'A'] := rfl
    rw [e1, e2] at hd
    simp at hd
  · decide

/-- Claim C3: the improvement percentage is "N/A" exactly when the
improvement delta is null (no prior completed iteration, in particular
iteration 1), is "0.0%" when the prior completed score is 0, and otherwise
is the signed percentage of (score minus prior) over prior; and the
recordings list renders the improvement indicator only when
improvement_from_previous is non-null. -/
theorem improvement_percentage_spec (history : List Recording) (score : ℚ) :
    (improvementPercentage history score = "N/A" ↔
      improvementDelta history score = none) ∧
    (∀ q : ℚ, priorCompletedScore history = some q → q = 0 →
      improvementPercentage history score = "0.0%") ∧
    (∀ q : ℚ, priorCompletedScore history = some q → q ≠ 0 →
      improvementPercentage history score =
        formatSignedPct ((score - q) / q * 100)) ∧
    (∀ r : Recording, rendersImprovement r = true →
      r.improvement_from_previous ≠ none) := by
  refine ⟨?_, ?_, ?_, ?_⟩
  · cases hp : priorCompletedScore history with
    | none => simp [improvementPercentage, improvementDelta, hp]
    | some q =>
      simp only [improvementPercentage, improvementDelta, hp, Option.map_some']
      constructor
      · intro h
        exfalso
        revert h
        split_ifs with h0
        · decide
        · exact formatSignedPct_ne_NA _
      · intro h
        exact absurd h (by simp)
  · intro q hq h0
    simp [improvementPercentage, hq, h0]
  · intro q hq h0
    simp [improvementPercentage, hq, h0]
  · intro r h
    rw [rendersImprovement, Bool.and_eq_true] at h
    exact Option.ne_none_iff_isSome.mpr h.2

/-- History with one completed recording scoring 80 and one failed
recording, for the C3 witness. -/
def histC3 : List Recording :=
  [{ status := Status.completed, iteration_number := 1, overall_score := some 80,
     improvement_from_previous := none, improvement_percentage := "N/A" },
   { status := Status.failed, iteration_number := 2, overall_score := none,
     improvement_from_previous := none, improvement_percentage := "N/A" }]

/-- Claim C3, witness: a new score of 90 after a completed prior score of 80
(with a failed recording skipped in between) gets the signed percentage of
the relative delta, which evaluates to "+12.5%". -/
theorem improvement_percentage_witness :
    improvementPercentage histC3 90 = formatSignedPct ((90 - 80) / 80 * 100) ∧
    formatSignedPct ((90 - 80) / 80 * 100) = "+12.5%" := by
  refine ⟨(improvement_percentage_spec histC3 90).2.2.1 80 (by decide) (by norm_num), ?_⟩
  have h : round ((((90 : ℚ) - 80) / 80 * 100) * 10) = 125 := by
    rw [round_eq]
    norm_num
  rw [formatSignedPct, h]
  rfl

/-- Claim C5: the badge types are exactly the eight enumerated ones — every
badge type has an emoji in the BadgeDisplay record, every key of the record
is one of the eight types, the eight displayed emojis are pairwise distinct,
and any other badge_type string gets the trophy fallback. -/
theorem badge_types_and_emojis :
    (∀ b : BadgeType, (badgeEmojis b.str).isSome = true) ∧
    (∀ t : String, (badgeEmojis t).isSome = true → ∃ b : BadgeType, t = b.str) ∧
    List.Pairwise (fun a b => a ≠ b)
      (allBadgeTypes.map fun b => displayEmoji b.str) ∧
    (∀ t : String, badgeEmojis t = none → displayEmoji t = "🏆") := by
  refine ⟨?_, ?_, ?_, ?_⟩
  · intro b
    cases b <;> rfl
  · intro t h
    unfold badgeEmojis at h
    split_ifs at h with h1 h2 h3 h4 h5 h6 h7 h8
    · exact ⟨BadgeType.first_recording, h1⟩
    · exact ⟨BadgeType.first_completion, h2⟩
    · exact ⟨BadgeType.perfectionist, h3⟩
    · exact ⟨BadgeType.five_recordings, h4⟩
    · exact ⟨BadgeType.ten_recordings, h5⟩
    · exact ⟨BadgeType.level_up, h6⟩
    · exact ⟨BadgeType.max_level, h7⟩
    · exact ⟨BadgeType.improvement_streak, h8⟩
    · simp at h
  · decide
  · intro t h
    rw [displayEmoji, h]
    rfl

/-- Claim C5, witness: an unknown badge_type string falls back to the trophy
emoji, and a known badge type has an emoji. -/
theorem badge_types_and_emojis_witness :
    displayEmoji "certified" = "🏆" ∧
    (badgeEmojis BadgeType.perfectionist.str).isSome = true :=
  ⟨badge_types_and_emojis.2.2.2 "certified" (by decide),
   badge_types_and_emojis.1 BadgeType.perfectionist⟩

/-- Claim C6: the ProgressTab level cards draw the level name of each level
1..5 from the fixed ordered five-name list, which matches the list the
README states, name by name and in order. -/
theorem level_names_fixed (n : Nat) (h1 : 1 ≤ n) (h5 : n ≤ 5) :
    readmeLevelNames = levelNames ∧
    levelNames.length = 5 ∧
    displayedLevelName n = readmeLevelNames.get? (n - 1) ∧
    (displayedLevelName n).isSome = true := by
  interval_cases n <;> exact ⟨rfl, rfl, rfl, rfl⟩

/-- Claim C6, witness: the level 3 card displays the third name of the
README list. -/
theorem level_names_fixed_witness :
    displayedLevelName 3 = readmeLevelNames.get? (3 - 1) ∧
    (displayedLevelName 3).isSome = true :=
  ⟨(level_names_fixed 3 (by decide) (by decide)).2.2.1,
   (level_names_fixed 3 (by decide) (by decide)).2.2.2⟩

/-- Claim C7: the trend classification always takes one of the four values,
with insufficient_data exactly when fewer than 2 completed recordings exist;
the ProgressTab maps improving, declining and stable to three distinct icons
different from the default, and every other trend string to the default
icon. -/
theorem trend_classification (recs : List Recording) :
    (computeTrend recs = Trend.improving ∨ computeTrend recs = Trend.declining ∨
      computeTrend recs = Trend.stable ∨
      computeTrend recs = Trend.insufficient_data) ∧
    (computeTrend recs = Trend.insufficient_data ↔
      (completedScores recs).length < 2) ∧
    (getTrendIcon "improving" ≠ getTrendIcon "declining" ∧
      getTrendIcon "improving" ≠ getTrendIcon "stable" ∧
      getTrendIcon "declining" ≠ getTrendIcon "stable" ∧
      getTrendIcon "improving" ≠ "❓" ∧ getTrendIcon "declining" ≠ "❓" ∧
      getTrendIcon "stable" ≠ "❓") ∧
    (∀ t : String, t ≠ "improving" → t ≠ "declining" → t ≠ "stable" →
      getTrendIcon t = "❓") := by
  refine ⟨?_, ?_, by decide, ?_⟩
  · cases h : computeTrend recs <;> tauto
  · rw [computeTrend]
    by_cases hlen : (completedScores recs).length < 2
    · simp [hlen]
    · rw [if_neg hlen]
      simp only [hlen, iff_false]
      rw [trendDirection]
      split_ifs <;> simp
  · intro t ht1 ht2 ht3
    rw [getTrendIcon, if_neg ht1, if_neg ht2, if_neg ht3]

/-- Claim C7, witness: an empty recordings list has insufficient data, and
the insufficient_data string maps to the default icon. -/
theorem trend_classification_witness :
    computeTrend [] = Trend.insufficient_data ∧
    getTrendIcon "insufficient_data" = "❓" :=
  ⟨(trend_classification []).2.1.mpr (by decide),
   (trend_classification []).2.2.2 "insufficient_data" (by decide) (by decide)
     (by decide)⟩

lemma active_step (f : Nat → Option Status) (t : Nat) (h : 1 ≤ t) :
    active f (t + 1) = (active f t && !tickStops f t) := by
  match t, h with
  | Nat.succ k, _ => rfl

lemma active_false_succ (f : Nat → Option Status) (t : Nat) (h1 : 1 ≤ t)
    (h : active f t = false) : active f (t + 1) = false := by
  rw [active_step f t h1, h, Bool.false_and]

lemma active_false_of_stops (f : Nat → Option Status) (t : Nat) (h1 : 1 ≤ t)
    (hs : tickStops f t = true) : ∀ u, t < u → active f u = false := by
  intro u
  induction u with
  | zero => intro hv; exact absurd hv (by omega)
  | succ v ih =>
    intro hv
    rcases Nat.lt_succ_iff_lt_or_eq.mp hv with hlt | heq
    · exact active_false_succ f v (by omega) (ih hlt)
    · subst heq
      rw [active_step f t h1, hs]
      simp

/-- Claim C8: every recording status is one of the four state-machine values
pending, processing, completed, failed; and once the polling loop observes a
terminal status (completed or failed) at some attempt, the interval is
cleared, so no later attempt issues a status request. -/
theorem status_values_and_poll_stop :
    (∀ s : Status, s = Status.pending ∨ s = Status.processing ∨
      s = Status.completed ∨ s = Status.failed) ∧
    (∀ (f : Nat → Option Status) (s : Status) (t u : Nat), 1 ≤ t →
      f t = some s → isTerminal s = true → t < u → active f u = false) := by
  constructor
  · intro s
    cases s <;> tauto
  · intro f s t u h1 hf hs htu
    have hstop : tickStops f t = true := by
      simp [tickStops, hf, hs]
    exact active_false_of_stops f t h1 hstop u htu

/-- Responses for the C8 witness: a terminal status at attempt 2. -/
def respTerm2 : Nat → Option Status :=
  fun t => if t = 2 then some Status.completed else some Status.processing

/-- Claim C8, witness: with a completed status observed at attempt 2, the
interval is inactive from attempt 3 on, and processing is one of the four
status values. -/
theorem status_values_and_poll_stop_witness :
    active respTerm2 3 = false ∧
    (Status.processing = Status.pending ∨ Status.processing = Status.processing ∨
      Status.processing = Status.completed ∨ Status.processing = Status.failed) :=
  ⟨status_values_and_poll_stop.2 respTerm2 Status.completed 2 3 (by decide)
      (by decide) (by decide) (by decide),
   status_values_and_poll_stop.1 Status.processing⟩

/-- Responses where every status request errors out: the catch block never
clears the interval. -/
def allErrors : Nat → Option Status := fun _ => none

/-- Claim C10, counterexample: the claim fails as stated — when every status
request errors, pollRecordingStatus keeps polling past maxAttempts, because
the timeout check sits inside the try block after a successful response; in
the first 61 ticks it issues 61 requests, more than maxAttempts = 60. -/
theorem poll_requests_unbounded :
    requestsIssued allErrors 61 = 61 ∧ maxAttempts < requestsIssued allErrors 61 := by
  decide

/-- Claim C10, amended: the poll runs at 5000 ms intervals, and whenever
every status request succeeds (receives some status), the interval is
inactive after attempt maxAttempts = 60, so at most 60 status requests are
ever issued; with request errors the loop can exceed that bound. -/
theorem poll_requests_bounded (f : Nat → Option Status)
    (hf : ∀ t, 1 ≤ t → (f t).isSome = true) :
    pollIntervalMs = 5000 ∧
    (∀ u, maxAttempts < u → active f u = false) ∧
    (∀ T, requestsIssued f T ≤ maxAttempts) := by
  have hstop : tickStops f maxAttempts = true := by
    rcases Option.isSome_iff_exists.mp (hf maxAttempts (by decide)) with ⟨s, hs⟩
    rw [tickStops, hs]
    simp [maxAttempts]
  have hinactive : ∀ u, maxAttempts < u → active f u = false :=
    active_false_of_stops f maxAttempts (by decide) hstop
  refine ⟨rfl, hinactive, ?_⟩
  intro T
  rw [requestsIssued]
  rcases le_or_lt T maxAttempts with hT | hT
  · calc (List.range T).countP (fun i => active f (i + 1))
        ≤ (List.range T).length := List.countP_le_length _
      _ = T := List.length_range T
      _ ≤ maxAttempts := hT
  · have hsplit : T = maxAttempts + (T - maxAttempts) := by omega
    rw [hsplit, List.range_add, List.countP_append]
    have hz : ((List.range (T - maxAttempts)).map fun i => maxAttempts + i).countP
        (fun i => active f (i + 1)) = 0 := by
      rw [List.countP_eq_zero]
      intro a ha
      rcases List.mem_map.mp ha with ⟨i, _, hi⟩
      subst hi
      simp [hinactive (maxAttempts + i + 1) (by omega)]
    rw [hz, Nat.add_zero]
    calc (List.range maxAttempts).countP (fun i => active f (i + 1))
        ≤ (List.range maxAttempts).length := List.countP_le_length _
      _ = maxAttempts := List.length_range maxAttempts

/-- Responses where every request succeeds with a processing status. -/
def allProcessing : Nat → Option Status := fun _ => some Status.processing

/-- Claim C10, witness: with all-successful processing responses the loop
issues at most 60 requests among any first 100 ticks. -/
theorem poll_requests_bounded_witness :
    requestsIssued allProcessing 100 ≤ maxAttempts ∧ pollIntervalMs = 5000 :=
  ⟨(poll_requests_bounded allProcessing (fun _ _ => rfl)).2.2 100,
   (poll_requests_bounded allProcessing (fun _ _ => rfl)).1⟩

lemma clampScore_nonneg (x : ℚ) : 0 ≤ clampScore x := le_max_left 0 _

lemma clampScore_le_100 (x : ℚ) : clampScore x ≤ 100 :=
  max_le (by norm_num) (min_le_left 100 x)

/-- Claim C9: for all valid metric inputs — nonnegative words-per-minute,
any filler-word and total word counts, optional coverage in [0, 100] — the
pacing, clarity and overall scores all lie in [0, 100], with or without a
coverage score. -/
theorem metric_scores_in_range (wpm : ℚ) (fillerCount totalWords : Nat)
    (cov : Option ℚ) (hw : 0 ≤ wpm)
    (hcov : ∀ v : ℚ, cov = some v → 0 ≤ v ∧ v ≤ 100) :
    0 ≤ (metricScores wpm fillerCount totalWords cov).1 ∧
    (metricScores wpm fillerCount totalWords cov).1 ≤ 100 ∧
    0 ≤ (metricScores wpm fillerCount totalWords cov).2.1 ∧
    (metricScores wpm fillerCount totalWords cov).2.1 ≤ 100 ∧
    0 ≤ (metricScores wpm fillerCount totalWords cov).2.2 ∧
    (metricScores wpm fillerCount totalWords cov).2.2 ≤ 100 := by
  rw [metricScores]
  split_ifs with h0
  · norm_num
  · refine ⟨clampScore_nonneg _, clampScore_le_100 _, ?_, ?_, ?_, ?_⟩
    · rw [clarityScore, if_neg h0]
      exact clampScore_nonneg _
    · rw [clarityScore, if_neg h0]
      exact clampScore_le_100 _
    · cases cov with
      | none => exact clampScore_nonneg _
      | some v => exact clampScore_nonneg _
    · cases cov with
      | none => exact clampScore_le_100 _
      | some v => exact clampScore_le_100 _

/-- Claim C9, witness: scores at 130 wpm, 2 filler words out of 100 words,
coverage 50, are each within [0, 100]. -/
theorem metric_scores_in_range_witness :
    0 ≤ (metricScores 130 2 100 (some 50)).1 ∧
    (metricScores 130 2 100 (some 50)).1 ≤ 100 ∧
    0 ≤ (metricScores 130 2 100 (some 50)).2.1 ∧
    (metricScores 130 2 100 (some 50)).2.1 ≤ 100 ∧
    0 ≤ (metricScores 130 2 100 (some 50)).2.2 ∧
    (metricScores 130 2 100 (some 50)).2.2 ≤ 100 :=
  metric_scores_in_range 130 2 100 (some 50) (by norm_num)
    (by intro v hv; injection hv with h; subst h; norm_num)

end PreseGuide
